import Mathlib

/-!
Verification development for the TEFHeatMapBangalore repository.

We give a shallow embedding of the two core parts of the program:

* `app.py`: the join-and-aggregation pipeline (`load_data`, the year filter,
  the `groupby('CPA_PIN_CODE')` aggregation producing `pincode_summary`,
  and the marker/cluster colour thresholds), and
* `fetch_coordinates.py`: the pincode-coordinate cache reconciler
  (`get_coordinates_for_pincode` and `main`).

Pandas/NumPy machine floats are modelled with `Rat` (exact rationals), so
statements about sums of percentages hold exactly where the original holds
up to floating-point tolerance.  The pandas `groupby` (which sorts group
keys ascending) is modelled by dedup-then-insertion-sort.
`sort_values('customer_count', ascending=False)` sorts on the single key
`customer_count` with pandas' default `kind='quicksort'`, which is not
stable, so the source leaves the relative order of equal counts
implementation-defined; the model fixes one deterministic permutation (a
stable insertion sort) and every theorem below uses only that the result
is a permutation of the unsorted summaries, never the tie order.
-/

namespace TEF

/-- A cleaned address record, as produced by the cleaning steps of
`load_data` in `app.py` (numeric pincode present, year parsed from the
registration date when possible, free-text city kept for fallback). -/
structure AddressRecord where
  pincode : Nat
  rawCity : Option String
  rawState : Option String
  year : Option Nat
deriving Repr, DecidableEq

/-- One row of the persisted pincode cache
(`pincode_coordinates_google.csv`) as read by `app.py`: coordinates are
always present, city/state may be null. -/
structure PincodeLocation where
  pincode : Nat
  latitude : Rat
  longitude : Rat
  city : Option String
  state : Option String
deriving Repr, DecidableEq

/-- A row of `merged_df` after the left join, column renames, the
city-fillna step and the coordinate dropna in `load_data`: it survives
exactly when its pincode had a cache row. `city` is the effective city
(cache city with raw-city fallback, line 48 of `app.py`); `state` is the
cache state (`StateName`). -/
structure JoinedRecord where
  pincode : Nat
  year : Option Nat
  latitude : Rat
  longitude : Rat
  city : Option String
  state : Option String
deriving Repr, DecidableEq

/-- Cache lookup by pincode, modelling the 1-to-1 left join of
`address_df.merge(pincode_coords, left_on='CPA_PIN_CODE', right_on='pincode')`. -/
def lookupCache (cache : List PincodeLocation) (p : Nat) : Option PincodeLocation :=
  cache.find? (fun e => e.pincode == p)

/-- Join a single cleaned record against the cache; `none` when the
pincode has no cache row (the row is dropped by
`dropna(subset=['Latitude','Longitude'])`). -/
def joinOne (cache : List PincodeLocation) (r : AddressRecord) : Option JoinedRecord :=
  match lookupCache cache r.pincode with
  | some e =>
      some { pincode := r.pincode, year := r.year,
             latitude := e.latitude, longitude := e.longitude,
             city := e.city.orElse (fun _ => r.rawCity), state := e.state }
  | none => none

/-- `load_data` of `app.py`: join the cleaned records with the cache and
drop the rows without coordinates. -/
def load_data (cache : List PincodeLocation) (records : List AddressRecord) :
    List JoinedRecord :=
  records.filterMap (joinOne cache)

/-- The sidebar year filter: `df[df['Year'] == selected_year]`, or the
whole frame when "All Years" is selected (`none`). -/
def filterYear (yearSel : Option Nat) (df : List JoinedRecord) : List JoinedRecord :=
  match yearSel with
  | none => df
  | some y => df.filter (fun r => r.year == some y)

/-- Insert into an ascending list of naturals (helper for the sorted
group keys of pandas `groupby`). -/
def insertAsc (x : Nat) : List Nat → List Nat
  | [] => [x]
  | y :: ys => if x ≤ y then x :: y :: ys else y :: insertAsc x ys

/-- Insertion sort ascending, modelling the ascending group-key order of
`groupby('CPA_PIN_CODE')` (and `sorted(...)` in `fetch_coordinates.py`). -/
def sortAsc (l : List Nat) : List Nat := l.foldr insertAsc []

/-- The distinct pincodes of a frame in ascending order: the group keys
of `filtered_df.groupby('CPA_PIN_CODE')`. -/
def groupKeys (df : List JoinedRecord) : List Nat :=
  sortAsc (df.map (·.pincode)).dedup

/-- The rows of one pincode group. -/
def groupOf (df : List JoinedRecord) (p : Nat) : List JoinedRecord :=
  df.filter (fun r => r.pincode == p)

/-- Insert into an ascending list of rationals (helper for the median). -/
def insertRat (x : Rat) : List Rat → List Rat
  | [] => [x]
  | y :: ys => if x ≤ y then x :: y :: ys else y :: insertRat x ys

/-- Insertion sort ascending on rationals. -/
def sortRat (l : List Rat) : List Rat := l.foldr insertRat []

/-- The pandas `median` aggregator: sort the values, take the middle one
for an odd count and the average of the two middle ones for an even
count. -/
def median (l : List Rat) : Rat :=
  let s := sortRat l
  let n := s.length
  if n = 0 then 0
  else if n % 2 = 1 then s.getD (n / 2) 0
  else (s.getD (n / 2 - 1) 0 + s.getD (n / 2) 0) / 2

/-- The arithmetic mean (only used to state that the aggregation is the
median, not the mean). -/
def meanRat (l : List Rat) : Rat := l.sum / (l.length : Rat)

/-- Number of occurrences of a value in a list of strings. -/
def occurrences (l : List String) (v : String) : Nat :=
  (l.filter (fun w => w == v)).length

/-- Whether `v` is a most frequent value of `l`. -/
def isTop (l : List String) (v : String) : Bool :=
  l.all (fun w => occurrences l w ≤ occurrences l v)

/-- Insert into an ascending list of strings. -/
def insertStr (x : String) : List String → List String
  | [] => [x]
  | y :: ys => if x < y then x :: y :: ys else y :: insertStr x ys

/-- Insertion sort ascending on strings. -/
def sortStr (l : List String) : List String := l.foldr insertStr []

/-- The pandas `Series.mode()` of a column of nullable strings: the most
frequent non-null values, sorted ascending (empty when all values are
null). -/
def seriesMode (l : List (Option String)) : List String :=
  sortStr (((l.filterMap id).dedup).filter (fun v => isTop (l.filterMap id) v))

/-- The aggregator `lambda x: x.mode()[0] if len(x.mode()) > 0 else x.iloc[0]`
used for the dominant city and state in `pincode_locations`. -/
def dominant (l : List (Option String)) : Option String :=
  match seriesMode l with
  | m :: _ => some m
  | [] => (l.head?).getD none

/-- One row of `pincode_summary` in `app.py`. -/
structure PincodeSummary where
  pincode : Nat
  customerCount : Nat
  latitude : Rat
  longitude : Rat
  dominantCity : Option String
  dominantState : Option String
  percentage : Rat
deriving Repr, DecidableEq

/-- The summary row of one pincode group: group size, median coordinates,
dominant city/state, and percentage of the filtered total
(`customer_count / total_customers * 100`). -/
def mkSummary (df : List JoinedRecord) (total : Nat) (p : Nat) : PincodeSummary :=
  let g := groupOf df p
  { pincode := p
    customerCount := g.length
    latitude := median (g.map (·.latitude))
    longitude := median (g.map (·.longitude))
    dominantCity := dominant (g.map (·.city))
    dominantState := dominant (g.map (·.state))
    percentage := (g.length : Rat) / (total : Rat) * 100 }

/-- `pincode_counts` merged with `pincode_locations` plus the percentage
column: one summary row per distinct pincode, in ascending pincode order
(the group-key order of pandas `groupby`). -/
def summarize (df : List JoinedRecord) : List PincodeSummary :=
  (groupKeys df).map (mkSummary df df.length)

/-- Descending insertion by `customerCount` (helper for
`sortByCountDesc`). -/
def insertByCount (s : PincodeSummary) : List PincodeSummary → List PincodeSummary
  | [] => [s]
  | t :: ts => if s.customerCount < t.customerCount then t :: insertByCount s ts
               else s :: t :: ts

/-- `sort_values('customer_count', ascending=False)`.  The source sorts
on this single key with pandas' default unstable `kind='quicksort'` and
no pincode tie-break, so the order among equal counts is
implementation-defined there; this model picks one concrete permutation
(an insertion sort), and no theorem relies on where equal counts land —
only on the output being a permutation of the input
(`perm_sortByCountDesc`). -/
def sortByCountDesc (l : List PincodeSummary) : List PincodeSummary :=
  l.foldr insertByCount []

/-- The full `pincode_summary` pipeline of `app.py` for one filtered
view: filter by year, aggregate by pincode, sort descending by count. -/
def pincode_summary (cache : List PincodeLocation) (records : List AddressRecord)
    (yearSel : Option Nat) : List PincodeSummary :=
  sortByCountDesc (summarize (filterYear yearSel (load_data cache records)))

/-- Whether a cleaned record's pincode resolves in the cache. -/
def resolves (cache : List PincodeLocation) (r : AddressRecord) : Bool :=
  (lookupCache cache r.pincode).isSome

/-- The year filter on cleaned records (the claims speak of "cleaned
records in the view"; `filterYear` keeps exactly the joined images of
these records). -/
def filterYearRecords (yearSel : Option Nat) (records : List AddressRecord) :
    List AddressRecord :=
  match yearSel with
  | none => records
  | some y => records.filter (fun r => r.year == some y)

/-! ## Marker and cluster colour thresholds (`app.py` lines 140-247) -/

/-- The four marker colours used by the dashboard. -/
inductive MarkerColor where
  | red
  | orange
  | lightgreen
  | lightblue
deriving Repr, DecidableEq

/-- The display mode toggle of the sidebar. -/
inductive DisplayMode where
  | absoluteCount
  | percentage
deriving Repr, DecidableEq

/-- Individual-marker colour in absolute-count mode
(`app.py` lines 240-247: `> 1000`, `> 500`, `> 100`). -/
def countColorMarker (c : Nat) : MarkerColor :=
  if c > 1000 then .red
  else if c > 500 then .orange
  else if c > 100 then .lightgreen
  else .lightblue

/-- Cluster colour in absolute-count mode, applied to the sum of the
clustered markers' counts (`icon_create_function`, `app.py` lines
187-190: `> 1000`, `> 500`, `>= 100`). -/
def countColorCluster (sum : Nat) : MarkerColor :=
  if sum > 1000 then .red
  else if sum > 500 then .orange
  else if sum ≥ 100 then .lightgreen
  else .lightblue

/-- Individual-marker colour in percentage mode
(`app.py` lines 228-235: `>= 10`, `>= 5`, `>= 1`). -/
def pctColorMarker (p : Rat) : MarkerColor :=
  if p ≥ 10 then .red
  else if p ≥ 5 then .orange
  else if p ≥ 1 then .lightgreen
  else .lightblue

/-- Cluster colour in percentage mode, applied to the sum of the
clustered markers' percentages (`icon_create_function`, `app.py` lines
161-164: `>= 10`, `>= 5`, `>= 1`). -/
def pctColorCluster (p : Rat) : MarkerColor :=
  if p ≥ 10 then .red
  else if p ≥ 5 then .orange
  else if p ≥ 1 then .lightgreen
  else .lightblue

/-- The colour the marker loop gives one summary row in the selected
display mode (`app.py` lines 225-247). -/
def markerColor (m : DisplayMode) (s : PincodeSummary) : MarkerColor :=
  match m with
  | .percentage => pctColorMarker s.percentage
  | .absoluteCount => countColorMarker s.customerCount

/-- The colour the cluster icon function gives a cluster of summaries in
absolute-count mode: the threshold table applied to the summed counts. -/
def clusterColorCount (ss : List PincodeSummary) : MarkerColor :=
  countColorCluster (ss.map (·.customerCount)).sum

/-- The colour the cluster icon function gives a cluster of summaries in
percentage mode: the threshold table applied to the summed percentages. -/
def clusterColorPct (ss : List PincodeSummary) : MarkerColor :=
  pctColorCluster (ss.map (·.percentage)).sum

/-! ## Geocoding client (`fetch_coordinates.py` lines 18-50) -/

/-- One typed address component of a geocoding candidate. -/
structure AddressComponent where
  long_name : String
  types : List String
deriving Repr, DecidableEq

/-- One candidate of a geocoding response: a coordinate, the typed
address components and the formatted address. -/
structure Candidate where
  lat : Rat
  lng : Rat
  address_components : List AddressComponent
  formatted_address : String
deriving Repr, DecidableEq

/-- One row produced by `get_coordinates_for_pincode` (and hence one row
of the persisted cache file). -/
structure GeoResult where
  pincode : Nat
  latitude : Rat
  longitude : Rat
  city : Option String
  state : Option String
  formatted_address : String
deriving Repr, DecidableEq

/-- The `for component in address_components` loop of
`get_coordinates_for_pincode`: `if 'locality' in types: city = long_name`
`elif 'administrative_area_level_1' in types: state = long_name`. -/
def componentLoop (acc : Option String × Option String) :
    List AddressComponent → Option String × Option String
  | [] => acc
  | comp :: rest =>
      if "locality" ∈ comp.types then
        componentLoop (some comp.long_name, acc.2) rest
      else if "administrative_area_level_1" ∈ comp.types then
        componentLoop (acc.1, some comp.long_name) rest
      else componentLoop acc rest

/-- `get_coordinates_for_pincode`, as a function of the provider's
candidate list: `None` on an empty result, otherwise a row built from
the first candidate only. -/
def get_coordinates_for_pincode (pincode : Nat) (geocode_result : List Candidate) :
    Option GeoResult :=
  match geocode_result with
  | [] => none
  | c :: _ =>
      let cs := componentLoop (none, none) c.address_components
      some { pincode := pincode, latitude := c.lat, longitude := c.lng,
             city := cs.1, state := cs.2,
             formatted_address := c.formatted_address }

/-! ## Cache reconciler (`fetch_coordinates.py` `main`) -/

/-- The three interactive modes of `main`. -/
inductive Mode where
  | useExisting
  | append
  | refetchAll
deriving Repr, DecidableEq

/-- The outcome of one `main` run: the rows of the cache file after the
run, the pincodes sent to the API, the successful resolutions of this
run, and whether the cache file was rewritten. -/
structure RunResult where
  store : List GeoResult
  fetched : List Nat
  results : List GeoResult
  wrote : Bool
deriving Repr, DecidableEq

/-- `sorted(address_df['CPA_PIN_CODE'].unique())`. -/
def uniqueSorted (l : List Nat) : List Nat := sortAsc l.dedup

/-- The fetch-and-save phase of `main` (lines 83-131), parametrised by
the set of already-cached pincodes chosen by the mode branch and by the
per-pincode outcome of `get_coordinates_for_pincode` (`oracle`).  When
nothing needs fetching the function returns early and the store is left
untouched; otherwise the successes are appended to the old rows when
`cached_pincodes` is non-empty (truthy) and replace them when it is
empty. -/
def fetchPhase (store : List GeoResult) (cached_pincodes : List Nat)
    (addressPincodes : List Nat) (oracle : Nat → Option GeoResult) : RunResult :=
  let unique_pincodes := uniqueSorted addressPincodes
  let pincodes_to_fetch := unique_pincodes.filter (fun p => !(cached_pincodes.contains p))
  if pincodes_to_fetch.isEmpty then
    { store := store, fetched := [], results := [], wrote := false }
  else
    let results := pincodes_to_fetch.filterMap oracle
    let combined := if cached_pincodes.isEmpty then results else store ++ results
    { store := combined, fetched := pincodes_to_fetch, results := results, wrote := true }

/-- `main` of `fetch_coordinates.py` as a pure function of the mode, the
cache rows on disk, the cleaned address pincodes and the geocoding
outcomes.  Use-existing returns without touching the store; append
subtracts the cached pincodes; refetch-all starts from an empty cached
set. -/
def runMain (mode : Mode) (store : List GeoResult) (addressPincodes : List Nat)
    (oracle : Nat → Option GeoResult) : RunResult :=
  match mode with
  | .useExisting => { store := store, fetched := [], results := [], wrote := false }
  | .append => fetchPhase store (store.map (·.pincode)) addressPincodes oracle
  | .refetchAll => fetchPhase store [] addressPincodes oracle

/-- The two numbers printed by the final summary block of `main`
(lines 133-139): `Total pincodes processed: len(results)` and
`Successful: len(results)`. -/
structure SummaryReport where
  processed : Nat
  successful : Nat
deriving Repr, DecidableEq

/-- The summary block printed after a run. -/
def summaryReport (r : RunResult) : SummaryReport :=
  { processed := r.results.length, successful := r.results.length }

/-! ## Concrete inputs used by witnesses and counterexamples -/

/-- A two-row cache used by witnesses (the concrete scenario of §8 of
the spec, with coordinates rounded to whole degrees). -/
def cacheW : List PincodeLocation :=
  [⟨110001, 28, 77, some "New Delhi", some "Delhi"⟩,
   ⟨560001, 12, 77, some "Bengaluru", some "Karnataka"⟩]

/-- Three cleaned records used by witnesses. -/
def recsW : List AddressRecord :=
  [⟨110001, some "Delhi", none, some 2021⟩,
   ⟨110001, some "Delhi", none, some 2021⟩,
   ⟨560001, some "Bangalore", none, some 2022⟩]

/-- A cache whose single row has null city and state. -/
def cacheNull : List PincodeLocation := [⟨400001, 19, 73, none, none⟩]

/-- A single cleaned record with no raw city/state. -/
def recsNull : List AddressRecord := [⟨400001, none, none, none⟩]

/-- A one-row store used by reconciler witnesses. -/
def storeW : List GeoResult := [⟨110001, 1, 2, none, none, "f"⟩]

/-- A geocoding oracle that resolves 560001 and fails everything else. -/
def oracleW : Nat → Option GeoResult := fun p =>
  if p = 560001 then some ⟨560001, 12, 77, some "Bengaluru", some "Karnataka", "g"⟩
  else none

/-- A summary row with exactly 100 customers. -/
def summary100 : PincodeSummary := ⟨560001, 100, 1, 2, none, none, 1⟩

/-- A concrete geocoding candidate with a locality and an
administrative-area component. -/
def candidateW : Candidate :=
  ⟨12, 77,
   [⟨"Bengaluru", ["locality", "political"]⟩,
    ⟨"Karnataka", ["administrative_area_level_1", "political"]⟩],
   "Bengaluru, Karnataka, India"⟩

/-- A second candidate, used to show the first-candidate-only rule. -/
def candidateW2 : Candidate :=
  ⟨9, 76, [⟨"Kochi", ["locality"]⟩], "Kochi, Kerala, India"⟩

end TEF

namespace TEF

/-! ## Helper lemmas: insertion sorts -/

theorem mem_insertAsc {a x : Nat} : ∀ {l : List Nat}, a ∈ insertAsc x l ↔ a = x ∨ a ∈ l
  | [] => by simp [insertAsc]
  | y :: ys => by
      simp only [insertAsc]
      split
      · simp
      · simp [mem_insertAsc (l := ys)]
        tauto

theorem mem_sortAsc {a : Nat} : ∀ {l : List Nat}, a ∈ sortAsc l ↔ a ∈ l
  | [] => by simp [sortAsc]
  | y :: ys => by
      simp only [sortAsc, List.foldr_cons]
      rw [show List.foldr insertAsc [] ys = sortAsc ys from rfl]
      rw [mem_insertAsc, mem_sortAsc (l := ys)]
      simp

theorem nodup_insertAsc {x : Nat} :
    ∀ {l : List Nat}, x ∉ l → l.Nodup → (insertAsc x l).Nodup
  | [], _, _ => by simp [insertAsc]
  | y :: ys, hx, hnd => by
      simp only [insertAsc]
      rcases List.nodup_cons.mp hnd with ⟨hy, hys⟩
      split
      · exact List.nodup_cons.mpr ⟨by simpa using hx, hnd⟩
      · refine List.nodup_cons.mpr ⟨?_, nodup_insertAsc (by simp at hx; exact hx.2) hys⟩
        rw [mem_insertAsc]
        rintro (rfl | h)
        · exact hx (by simp)
        · exact hy h

theorem nodup_sortAsc : ∀ {l : List Nat}, l.Nodup → (sortAsc l).Nodup
  | [], _ => by simp [sortAsc]
  | y :: ys, hnd => by
      rcases List.nodup_cons.mp hnd with ⟨hy, hys⟩
      have hmem : y ∉ sortAsc ys := fun h => hy (mem_sortAsc.mp h)
      simp only [sortAsc, List.foldr_cons]
      exact nodup_insertAsc hmem (nodup_sortAsc hys)

/-! ## Helper lemmas: the stable descending sort on summaries -/

theorem perm_insertByCount (s : PincodeSummary) :
    ∀ (l : List PincodeSummary), List.Perm (insertByCount s l) (s :: l)
  | [] => by simp [insertByCount]
  | t :: ts => by
      simp only [insertByCount]
      split
      · exact ((perm_insertByCount s ts).cons t).trans (List.Perm.swap s t ts)
      · exact List.Perm.refl _

theorem perm_sortByCountDesc : ∀ (l : List PincodeSummary), List.Perm (sortByCountDesc l) l
  | [] => List.Perm.refl _
  | s :: l => by
      simp only [sortByCountDesc, List.foldr_cons]
      exact (perm_insertByCount s (sortByCountDesc l)).trans
        ((perm_sortByCountDesc l).cons s)

/-! ## Helper lemmas: grouping and counting -/

theorem mkSummary_pincode (df : List JoinedRecord) (n p : Nat) :
    (mkSummary df n p).pincode = p := rfl

theorem mkSummary_count (df : List JoinedRecord) (n p : Nat) :
    (mkSummary df n p).customerCount = (groupOf df p).length := rfl

theorem mkSummary_latitude (df : List JoinedRecord) (n p : Nat) :
    (mkSummary df n p).latitude = median ((groupOf df p).map (·.latitude)) := rfl

theorem mkSummary_longitude (df : List JoinedRecord) (n p : Nat) :
    (mkSummary df n p).longitude = median ((groupOf df p).map (·.longitude)) := rfl

theorem mkSummary_city (df : List JoinedRecord) (n p : Nat) :
    (mkSummary df n p).dominantCity = dominant ((groupOf df p).map (·.city)) := rfl

theorem mkSummary_state (df : List JoinedRecord) (n p : Nat) :
    (mkSummary df n p).dominantState = dominant ((groupOf df p).map (·.state)) := rfl

theorem mkSummary_percentage (df : List JoinedRecord) (n p : Nat) :
    (mkSummary df n p).percentage = ((groupOf df p).length : Rat) / (n : Rat) * 100 := rfl

theorem mem_groupKeys {df : List JoinedRecord} {p : Nat} :
    p ∈ groupKeys df ↔ ∃ r ∈ df, r.pincode = p := by
  simp [groupKeys, mem_sortAsc, List.mem_dedup]

theorem nodup_groupKeys (df : List JoinedRecord) : (groupKeys df).Nodup :=
  nodup_sortAsc (List.nodup_dedup _)

theorem length_filter_split (df : List JoinedRecord) (q : Nat) :
    (df.filter (fun r => r.pincode == q)).length
      + (df.filter (fun r => !(r.pincode == q))).length = df.length := by
  induction df with
  | nil => simp
  | cons r rs ih =>
      by_cases h : r.pincode = q
      · simp [List.filter_cons, h]
        omega
      · simp [List.filter_cons, h]
        omega

theorem groupOf_filter_ne {p q : Nat} (h : p ≠ q) (df : List JoinedRecord) :
    groupOf (df.filter (fun r => !(r.pincode == q))) p = groupOf df p := by
  induction df with
  | nil => rfl
  | cons r rs ih =>
      by_cases hq : r.pincode = q
      · have hb : (!(r.pincode == q)) = false := by simp [hq]
        have hb2 : (r.pincode == p) = false := by
          rw [hq]
          simp [Ne.symm h]
        simp [groupOf, List.filter_cons, hb, hb2] at *
        exact ih
      · have hb : (!(r.pincode == q)) = true := by simp [hq]
        by_cases hp : r.pincode = p
        · simp [groupOf, List.filter_cons, hb, hp, h] at *
          exact ih
        · have hb2 : (r.pincode == p) = false := by simp [hp]
          simp [groupOf, List.filter_cons, hb, hb2] at *
          exact ih

theorem sum_group_lengths :
    ∀ (ps : List Nat) (df : List JoinedRecord), ps.Nodup →
      (∀ r ∈ df, r.pincode ∈ ps) →
      ((ps.map (fun p => (groupOf df p).length)).sum) = df.length := by
  intro ps
  induction ps with
  | nil =>
      intro df _ hcov
      cases df with
      | nil => rfl
      | cons r rs => exact absurd (hcov r (by simp)) (by simp)
  | cons q qs ih =>
      intro df hnd hcov
      rcases List.nodup_cons.mp hnd with ⟨hq, hqs⟩
      have hcong : qs.map (fun p => (groupOf df p).length)
          = qs.map (fun p => (groupOf (df.filter (fun r => !(r.pincode == q))) p).length) := by
        apply List.map_congr_left
        intro p hp
        have hne : p ≠ q := fun hc => hq (hc ▸ hp)
        rw [groupOf_filter_ne hne]
      have hih : ((qs.map (fun p =>
          (groupOf (df.filter (fun r => !(r.pincode == q))) p).length)).sum)
          = (df.filter (fun r => !(r.pincode == q))).length := by
        apply ih _ hqs
        intro r hr
        rcases List.mem_filter.mp hr with ⟨hrdf, hrq⟩
        have := hcov r hrdf
        rcases List.mem_cons.mp this with hcase | hcase
        · exfalso
          simp [hcase] at hrq
        · exact hcase
      simp only [List.map_cons, List.sum_cons, hcong, hih]
      exact length_filter_split df q

theorem view_length (cache : List PincodeLocation) (ys : Option Nat) :
    ∀ records, (filterYear ys (load_data cache records)).length
      = ((filterYearRecords ys records).filter (fun r => resolves cache r)).length := by
  intro records
  induction records with
  | nil => cases ys <;> rfl
  | cons r rs ih =>
      cases hl : lookupCache cache r.pincode with
      | none =>
          have hres : resolves cache r = false := by simp [resolves, hl]
          cases ys with
          | none =>
              simpa [load_data, filterYear, filterYearRecords, List.filterMap_cons,
                joinOne, hl, List.filter_cons, hres] using ih
          | some y =>
              by_cases hy : r.year = some y
              · simpa [load_data, filterYear, filterYearRecords, List.filterMap_cons,
                  joinOne, hl, List.filter_cons, hres, hy] using ih
              · simpa [load_data, filterYear, filterYearRecords, List.filterMap_cons,
                  joinOne, hl, List.filter_cons, hres, hy] using ih
      | some e =>
          have hres : resolves cache r = true := by simp [resolves, hl]
          cases ys with
          | none =>
              simpa [load_data, filterYear, filterYearRecords, List.filterMap_cons,
                joinOne, hl, List.filter_cons, hres] using ih
          | some y =>
              by_cases hy : r.year = some y
              · simpa [load_data, filterYear, filterYearRecords, List.filterMap_cons,
                  joinOne, hl, List.filter_cons, hres, hy] using ih
              · simpa [load_data, filterYear, filterYearRecords, List.filterMap_cons,
                  joinOne, hl, List.filter_cons, hres, hy] using ih

theorem sum_map_pct (ks : List Nat) (df : List JoinedRecord) (T : Rat) :
    ((ks.map (fun p => ((groupOf df p).length : Rat) / T * 100)).sum)
      = (((ks.map (fun p => (groupOf df p).length)).sum : Nat) : Rat) / T * 100 := by
  induction ks with
  | nil => simp
  | cons k ks ih =>
      simp only [List.map_cons, List.sum_cons, ih]
      push_cast
      ring

theorem dominant_all_none {l : List (Option String)} (h1 : l ≠ [])
    (h2 : ∀ x ∈ l, x = none) : dominant l = none := by
  have hfm : l.filterMap id = [] := by
    rw [List.filterMap_eq_nil_iff]
    intro a ha
    exact h2 a ha
  have hmode : seriesMode l = [] := by simp [seriesMode, hfm, sortStr]
  cases l with
  | nil => exact absurd rfl h1
  | cons x xs =>
      have hx : x = none := h2 x (by simp)
      have hd : dominant (x :: xs) = ((x :: xs).head?).getD none := by
        unfold dominant
        rw [hmode]
      rw [hd]
      simp [hx]

/-! ## Claim theorems: the aggregation pipeline -/

/-- C1: for every filtered view, the summaries' customer counts sum to
the number of cleaned records of the view whose pincode resolves in the
cache; the percentages sum to exactly 100 (the exact-arithmetic form of
"within floating-point tolerance") when the view is non-empty; and an
empty view yields an empty summary sequence. -/
theorem C1_totals (cache : List PincodeLocation) (records : List AddressRecord)
    (ys : Option Nat) :
    ((pincode_summary cache records ys).map (·.customerCount)).sum
        = ((filterYearRecords ys records).filter (fun r => resolves cache r)).length
    ∧ (filterYear ys (load_data cache records) ≠ [] →
        ((pincode_summary cache records ys).map (·.percentage)).sum = 100)
    ∧ (filterYear ys (load_data cache records) = [] →
        pincode_summary cache records ys = []) := by
  have hperm : List.Perm (pincode_summary cache records ys)
      (summarize (filterYear ys (load_data cache records))) := perm_sortByCountDesc _
  set v := filterYear ys (load_data cache records) with hv
  have hcnt_map : (summarize v).map (·.customerCount)
      = (groupKeys v).map (fun p => (groupOf v p).length) := by
    rw [summarize, List.map_map]
    apply List.map_congr_left
    intro p _
    exact mkSummary_count v v.length p
  have hsumlen : ((groupKeys v).map (fun p => (groupOf v p).length)).sum = v.length :=
    sum_group_lengths _ v (nodup_groupKeys v)
      (fun r hr => mem_groupKeys.mpr ⟨r, hr, rfl⟩)
  refine ⟨?_, ?_, ?_⟩
  · have h1 : ((pincode_summary cache records ys).map (·.customerCount)).sum
        = ((summarize v).map (·.customerCount)).sum :=
      (hperm.map (·.customerCount)).sum_eq
    rw [h1, hcnt_map, hsumlen]
    exact view_length cache ys records
  · intro hne
    have hT : ((v.length : Nat) : Rat) ≠ 0 := by
      have : v.length ≠ 0 := fun hc => hne (List.length_eq_zero.mp hc)
      exact_mod_cast Nat.cast_ne_zero.mpr this
    have h1 : ((pincode_summary cache records ys).map (·.percentage)).sum
        = ((summarize v).map (·.percentage)).sum :=
      (hperm.map (·.percentage)).sum_eq
    have hpct_map : (summarize v).map (·.percentage)
        = (groupKeys v).map (fun p => ((groupOf v p).length : Rat) / (v.length : Rat) * 100) := by
      rw [summarize, List.map_map]
      apply List.map_congr_left
      intro p _
      exact mkSummary_percentage v v.length p
    rw [h1, hpct_map, sum_map_pct, hsumlen, div_self hT, one_mul]
  · intro hcase
    show sortByCountDesc (summarize v) = []
    rw [hcase]
    rfl

/-- C2: every produced summary's representative latitude and longitude
are the medians of its pincode group's per-record resolved coordinates
(the `median` aggregator: middle value for an odd group, average of the
two middle values for an even group), as witnessed on an odd and an even
list; the median is not the arithmetic mean. -/
theorem C2_median_representative :
    (∀ (cache : List PincodeLocation) (records : List AddressRecord) (ys : Option Nat)
        (s : PincodeSummary), s ∈ pincode_summary cache records ys →
        s.latitude = median ((groupOf (filterYear ys (load_data cache records))
            s.pincode).map (·.latitude))
        ∧ s.longitude = median ((groupOf (filterYear ys (load_data cache records))
            s.pincode).map (·.longitude)))
    ∧ median [1, 2, 10] = 2
    ∧ median [1, 2, 3, 10] = (2 + 3) / 2
    ∧ median [1, 2, 10] ≠ meanRat [1, 2, 10] := by
  refine ⟨?_, by norm_num [median, sortRat, insertRat], by norm_num [median, sortRat, insertRat],
    by norm_num [median, meanRat, sortRat, insertRat]⟩
  intro cache records ys s hs
  have hs2 : s ∈ summarize (filterYear ys (load_data cache records)) :=
    (perm_sortByCountDesc _).mem_iff.mp hs
  rcases List.mem_map.mp hs2 with ⟨p, _, rfl⟩
  constructor
  · rw [mkSummary_pincode, mkSummary_latitude]
  · rw [mkSummary_pincode, mkSummary_longitude]

/-- C10: a non-empty pincode group whose effective city (and state)
values are all null still yields a summary row, whose dominant city
(and state) is null: the pandas mode of the group is empty and the
fallback takes the group's first, null, value. -/
theorem C10_all_null_locality (cache : List PincodeLocation)
    (records : List AddressRecord) (ys : Option Nat) (p : Nat)
    (h : groupOf (filterYear ys (load_data cache records)) p ≠ []) :
    ∃ s ∈ pincode_summary cache records ys, s.pincode = p
      ∧ ((∀ r ∈ groupOf (filterYear ys (load_data cache records)) p, r.city = none) →
          s.dominantCity = none)
      ∧ ((∀ r ∈ groupOf (filterYear ys (load_data cache records)) p, r.state = none) →
          s.dominantState = none) := by
  set v := filterYear ys (load_data cache records) with hv
  have hp : p ∈ groupKeys v := by
    rcases List.exists_mem_of_ne_nil _ h with ⟨r, hr⟩
    rcases List.mem_filter.mp hr with ⟨hrv, hrp⟩
    exact mem_groupKeys.mpr ⟨r, hrv, by simpa using hrp⟩
  refine ⟨mkSummary v v.length p, ?_, mkSummary_pincode v v.length p, ?_, ?_⟩
  · exact (perm_sortByCountDesc _).mem_iff.mpr (List.mem_map_of_mem _ hp)
  · intro hall
    rw [mkSummary_city]
    apply dominant_all_none
    · intro hc
      exact h (List.map_eq_nil_iff.mp hc)
    · intro x hx
      rcases List.mem_map.mp hx with ⟨r, hr, rfl⟩
      exact hall r hr
  · intro hall
    rw [mkSummary_state]
    apply dominant_all_none
    · intro hc
      exact h (List.map_eq_nil_iff.mp hc)
    · intro x hx
      rcases List.mem_map.mp hx with ⟨r, hr, rfl⟩
      exact hall r hr

/-! ## Helper lemmas: the geocoding component loop -/

theorem componentLoop_fst_none :
    ∀ (comps : List AddressComponent) (acc : Option String × Option String),
      (∀ comp ∈ comps, "locality" ∉ comp.types) →
      (componentLoop acc comps).1 = acc.1
  | [], _, _ => rfl
  | comp :: rest, acc, h => by
      have hcl : "locality" ∉ comp.types := h comp (by simp)
      simp only [componentLoop, if_neg hcl]
      split
      · exact componentLoop_fst_none rest _ (fun c hc => h c (List.mem_cons_of_mem _ hc))
      · exact componentLoop_fst_none rest _ (fun c hc => h c (List.mem_cons_of_mem _ hc))

theorem componentLoop_snd_none :
    ∀ (comps : List AddressComponent) (acc : Option String × Option String),
      (∀ comp ∈ comps, "administrative_area_level_1" ∉ comp.types) →
      (componentLoop acc comps).2 = acc.2
  | [], _, _ => rfl
  | comp :: rest, acc, h => by
      have ha : "administrative_area_level_1" ∉ comp.types := h comp (by simp)
      simp only [componentLoop, if_neg ha]
      split
      · exact componentLoop_snd_none rest _ (fun c hc => h c (List.mem_cons_of_mem _ hc))
      · exact componentLoop_snd_none rest _ (fun c hc => h c (List.mem_cons_of_mem _ hc))

theorem componentLoop_fst_some :
    ∀ (comps : List AddressComponent) (acc : Option String × Option String) (n : String),
      (componentLoop acc comps).1 = some n →
      acc.1 = some n ∨ ∃ comp ∈ comps, "locality" ∈ comp.types ∧ comp.long_name = n
  | [], _, _, h => Or.inl h
  | comp :: rest, acc, n, h => by
      by_cases hcl : "locality" ∈ comp.types
      · simp only [componentLoop, if_pos hcl] at h
        rcases componentLoop_fst_some rest _ n h with h2 | ⟨c, hc, hct, hcn⟩
        · exact Or.inr ⟨comp, by simp, hcl, by simpa using h2⟩
        · exact Or.inr ⟨c, List.mem_cons_of_mem _ hc, hct, hcn⟩
      · by_cases ha : "administrative_area_level_1" ∈ comp.types
        · simp only [componentLoop, if_neg hcl, if_pos ha] at h
          rcases componentLoop_fst_some rest _ n h with h2 | ⟨c, hc, hct, hcn⟩
          · exact Or.inl (by simpa using h2)
          · exact Or.inr ⟨c, List.mem_cons_of_mem _ hc, hct, hcn⟩
        · simp only [componentLoop, if_neg hcl, if_neg ha] at h
          rcases componentLoop_fst_some rest _ n h with h2 | ⟨c, hc, hct, hcn⟩
          · exact Or.inl h2
          · exact Or.inr ⟨c, List.mem_cons_of_mem _ hc, hct, hcn⟩

theorem componentLoop_snd_some :
    ∀ (comps : List AddressComponent) (acc : Option String × Option String) (n : String),
      (componentLoop acc comps).2 = some n →
      acc.2 = some n ∨ ∃ comp ∈ comps,
        "administrative_area_level_1" ∈ comp.types ∧ comp.long_name = n
  | [], _, _, h => Or.inl h
  | comp :: rest, acc, n, h => by
      by_cases hcl : "locality" ∈ comp.types
      · simp only [componentLoop, if_pos hcl] at h
        rcases componentLoop_snd_some rest _ n h with h2 | ⟨c, hc, hct, hcn⟩
        · exact Or.inl (by simpa using h2)
        · exact Or.inr ⟨c, List.mem_cons_of_mem _ hc, hct, hcn⟩
      · by_cases ha : "administrative_area_level_1" ∈ comp.types
        · simp only [componentLoop, if_neg hcl, if_pos ha] at h
          rcases componentLoop_snd_some rest _ n h with h2 | ⟨c, hc, hct, hcn⟩
          · exact Or.inr ⟨comp, by simp, ha, by simpa using h2⟩
          · exact Or.inr ⟨c, List.mem_cons_of_mem _ hc, hct, hcn⟩
        · simp only [componentLoop, if_neg hcl, if_neg ha] at h
          rcases componentLoop_snd_some rest _ n h with h2 | ⟨c, hc, hct, hcn⟩
          · exact Or.inl h2
          · exact Or.inr ⟨c, List.mem_cons_of_mem _ hc, hct, hcn⟩

/-! ## Helper lemmas: the reconciler -/

theorem mem_uniqueSorted {p : Nat} {l : List Nat} : p ∈ uniqueSorted l ↔ p ∈ l := by
  simp [uniqueSorted, mem_sortAsc, List.mem_dedup]

theorem uniqueSorted_ne_nil {l : List Nat} (h : l ≠ []) : uniqueSorted l ≠ [] := by
  intro hc
  cases l with
  | nil => exact h rfl
  | cons x xs =>
      have : x ∈ uniqueSorted (x :: xs) := mem_uniqueSorted.mpr (by simp)
      rw [hc] at this
      exact absurd this (List.not_mem_nil x)

/-! ## Claim theorems: geocoding adapter -/

/-- C5: `get_coordinates_for_pincode` consumes only the first candidate
of the provider's response and succeeds on every non-empty response
(every candidate carries a coordinate); its city comes from a component
typed `locality` and its state from a component typed
`administrative_area_level_1`, with the field null — but the resolution
still a success — when no such component exists. -/
theorem C5_first_candidate_resolution :
    (∀ (p : Nat) (c : Candidate) (rest : List Candidate),
        get_coordinates_for_pincode p (c :: rest) = get_coordinates_for_pincode p [c])
    ∧ (∀ (p : Nat) (resp : List Candidate), resp ≠ [] →
        (get_coordinates_for_pincode p resp).isSome = true)
    ∧ (∀ (p : Nat) (c : Candidate) (rest : List Candidate) (r : GeoResult),
        get_coordinates_for_pincode p (c :: rest) = some r →
        ((∀ comp ∈ c.address_components, "locality" ∉ comp.types) → r.city = none)
        ∧ ((∀ comp ∈ c.address_components, "administrative_area_level_1" ∉ comp.types) →
            r.state = none)
        ∧ (∀ n, r.city = some n →
            ∃ comp ∈ c.address_components, "locality" ∈ comp.types ∧ comp.long_name = n)
        ∧ (∀ n, r.state = some n →
            ∃ comp ∈ c.address_components,
              "administrative_area_level_1" ∈ comp.types ∧ comp.long_name = n)) := by
  refine ⟨fun p c rest => rfl, ?_, ?_⟩
  · intro p resp h
    cases resp with
    | nil => exact absurd rfl h
    | cons c rest => rfl
  · intro p c rest r h
    have hr : r = ⟨p, c.lat, c.lng, (componentLoop (none, none) c.address_components).1,
        (componentLoop (none, none) c.address_components).2, c.formatted_address⟩ := by
      simpa [get_coordinates_for_pincode] using h.symm
    subst hr
    refine ⟨?_, ?_, ?_, ?_⟩
    · intro hnone
      exact componentLoop_fst_none c.address_components (none, none) hnone
    · intro hnone
      exact componentLoop_snd_none c.address_components (none, none) hnone
    · intro n hn
      rcases componentLoop_fst_some c.address_components (none, none) n hn with h2 | h2
      · exact absurd h2 (by simp)
      · exact h2
    · intro n hn
      rcases componentLoop_snd_some c.address_components (none, none) n hn with h2 | h2
      · exact absurd h2 (by simp)
      · exact h2

/-! ## Claim theorems: reconciler -/

/-- C4: an append run in which every observed pincode is already cached
performs no fetches, leaves the store untouched and does not rewrite the
cache file; a second consecutive append run over the same observations
is equally a no-op. -/
theorem C4_append_noop (store : List GeoResult) (aps : List Nat)
    (oracle : Nat → Option GeoResult)
    (h : ∀ p ∈ aps, p ∈ store.map (·.pincode)) :
    runMain .append store aps oracle
      = { store := store, fetched := [], results := [], wrote := false }
    ∧ runMain .append (runMain .append store aps oracle).store aps oracle
      = { store := store, fetched := [], results := [], wrote := false } := by
  have hfe : (uniqueSorted aps).filter
      (fun p => !((store.map (·.pincode)).contains p)) = [] := by
    rw [List.filter_eq_nil_iff]
    intro p hp
    have hmem : p ∈ store.map (·.pincode) := h p (mem_uniqueSorted.mp hp)
    simp [hmem]
  have h1 : runMain .append store aps oracle
      = { store := store, fetched := [], results := [], wrote := false } := by
    show fetchPhase store (store.map (·.pincode)) aps oracle = _
    simp only [fetchPhase]
    rw [hfe]
    rfl
  refine ⟨h1, ?_⟩
  rw [h1]
  exact h1

/-- C9 counterexample: in refetch-all mode with an empty observed
pincode set, the run exits early and the old cache row survives, so the
persisted store is not the set of entries produced by the run's (empty)
successful resolutions. -/
theorem C9_counterexample :
    (runMain .refetchAll storeW [] oracleW).results = []
    ∧ (runMain .refetchAll storeW [] oracleW).store = storeW
    ∧ (runMain .refetchAll storeW [] oracleW).store
        ≠ (runMain .refetchAll storeW [] oracleW).results := by
  refine ⟨rfl, rfl, ?_⟩
  intro hc
  simp [runMain, fetchPhase, uniqueSorted, sortAsc, storeW] at hc

/-- C9 (amended): provided at least one pincode is observed, a
refetch-all run rebuilds the persisted store as exactly the current
run's successful resolutions (in ascending pincode order); any entry
whose pincode is not observed, or whose re-fetch fails, is absent. -/
theorem C9_refetch_rebuild (store : List GeoResult) (aps : List Nat)
    (oracle : Nat → Option GeoResult) (h1 : aps ≠ [])
    (hwf : ∀ p r, oracle p = some r → r.pincode = p) :
    (runMain .refetchAll store aps oracle).store = (uniqueSorted aps).filterMap oracle
    ∧ (∀ e : GeoResult, e.pincode ∉ aps →
        e ∉ (runMain .refetchAll store aps oracle).store)
    ∧ (∀ e : GeoResult, oracle e.pincode = none →
        e ∉ (runMain .refetchAll store aps oracle).store) := by
  have hfe : (uniqueSorted aps).filter (fun p => !(([] : List Nat).contains p))
      = uniqueSorted aps := by
    simp
  have hne : ((uniqueSorted aps).filter
      (fun p => !(([] : List Nat).contains p))).isEmpty = false := by
    rw [hfe]
    cases hu : uniqueSorted aps with
    | nil => exact absurd hu (uniqueSorted_ne_nil h1)
    | cons x xs => rfl
  have hstore : (runMain .refetchAll store aps oracle).store
      = (uniqueSorted aps).filterMap oracle := by
    show (fetchPhase store [] aps oracle).store = _
    simp only [fetchPhase, hne, if_false, Bool.false_eq_true, hfe]
    simp [uniqueSorted_ne_nil h1]
  refine ⟨hstore, ?_, ?_⟩
  · intro e he hc
    rw [hstore] at hc
    rcases List.mem_filterMap.mp hc with ⟨p, hp, hop⟩
    have : e.pincode = p := hwf p e hop
    exact he (this ▸ mem_uniqueSorted.mp hp)
  · intro e he hc
    rw [hstore] at hc
    rcases List.mem_filterMap.mp hc with ⟨p, hp, hop⟩
    have hep : e.pincode = p := hwf p e hop
    rw [← hep] at hop
    rw [he] at hop
    exact Option.noConfusion hop

/-- C6: the summary block a completed run prints reports
`len(results)` both as "Total pincodes processed" and as "Successful":
on a run that attempts two pincodes of which one fails, the printed
"processed" count is 1, not the 2 pincodes actually attempted, and no
skipped count is reported anywhere in the summary. -/
theorem C6_report_evaluation :
    (runMain .refetchAll [] [560001, 560002] oracleW).fetched.length = 2
    ∧ (runMain .refetchAll [] [560001, 560002] oracleW).results.length = 1
    ∧ summaryReport (runMain .refetchAll [] [560001, 560002] oracleW)
        = { processed := 1, successful := 1 }
    ∧ (summaryReport (runMain .refetchAll [] [560001, 560002] oracleW)).processed
        ≠ (runMain .refetchAll [] [560001, 560002] oracleW).fetched.length := by
  refine ⟨rfl, rfl, rfl, ?_⟩
  intro hc
  simp [runMain, fetchPhase, uniqueSorted, sortAsc, insertAsc, oracleW,
    summaryReport] at hc

/-! ## Claim theorems: tier thresholds -/

/-- C7 counterexample: at exactly 100 customers the individual marker is
lightblue (`> 100` is strict) while a singleton cluster shows lightgreen
(`>= 100`), so no single count-to-tier function matches both display
paths. -/
theorem C7_counterexample :
    markerColor .absoluteCount summary100 = MarkerColor.lightblue
    ∧ clusterColorCount [summary100] = MarkerColor.lightgreen
    ∧ markerColor .absoluteCount summary100 ≠ clusterColorCount [summary100] := by
  refine ⟨rfl, rfl, ?_⟩
  intro hc
  simp [markerColor, clusterColorCount, countColorMarker, countColorCluster,
    summary100] at hc

/-- C7 (amended): both displays are pure functions of the summary; the
percentage tier table (boundaries at 1, 5, 10) is shared exactly between
individual markers and clusters, while the count tier tables (boundaries
at 100, 500, 1000) agree everywhere except at a count of exactly 100,
where the marker table is strict and the cluster table inclusive. -/
theorem C7_tier_functions :
    (∀ s : PincodeSummary, markerColor .absoluteCount s = countColorMarker s.customerCount
      ∧ markerColor .percentage s = pctColorMarker s.percentage)
    ∧ (∀ ss : List PincodeSummary,
        clusterColorCount ss = countColorCluster ((ss.map (·.customerCount)).sum)
        ∧ clusterColorPct ss = pctColorCluster ((ss.map (·.percentage)).sum))
    ∧ (∀ q : Rat, pctColorMarker q = pctColorCluster q)
    ∧ (∀ c : Nat, c ≠ 100 → countColorMarker c = countColorCluster c)
    ∧ countColorMarker 100 = MarkerColor.lightblue
    ∧ countColorCluster 100 = MarkerColor.lightgreen := by
  refine ⟨fun s => ⟨rfl, rfl⟩, fun ss => ⟨rfl, rfl⟩, fun q => rfl, ?_, rfl, rfl⟩
  intro c hc
  unfold countColorMarker countColorCluster
  split_ifs <;> first | rfl | omega

/-! ## Witnesses -/

/-- Witness for C1 on the §8 scenario: the view is non-empty and the
percentages sum to exactly 100. -/
theorem C1_totals_witness :
    filterYear none (load_data cacheW recsW) ≠ []
    ∧ ((pincode_summary cacheW recsW none).map (·.percentage)).sum = 100 :=
  ⟨by decide, (C1_totals cacheW recsW none).2.1 (by decide)⟩

/-- Witness for C2 on the §8 scenario: the summary row of pincode
110001 is produced and its latitude is the median of its group. -/
theorem C2_median_witness :
    mkSummary (filterYear none (load_data cacheW recsW))
        (filterYear none (load_data cacheW recsW)).length 110001
      ∈ pincode_summary cacheW recsW none
    ∧ (mkSummary (filterYear none (load_data cacheW recsW))
        (filterYear none (load_data cacheW recsW)).length 110001).latitude
      = median ((groupOf (filterYear none (load_data cacheW recsW))
          (mkSummary (filterYear none (load_data cacheW recsW))
            (filterYear none (load_data cacheW recsW)).length 110001).pincode).map
          (·.latitude)) := by
  have hkey : (110001 : Nat) ∈ groupKeys (filterYear none (load_data cacheW recsW)) := by
    decide
  have hmem : mkSummary (filterYear none (load_data cacheW recsW))
      (filterYear none (load_data cacheW recsW)).length 110001
      ∈ pincode_summary cacheW recsW none :=
    (perm_sortByCountDesc _).mem_iff.mpr (List.mem_map_of_mem _ hkey)
  exact ⟨hmem, (C2_median_representative.1 cacheW recsW none _ hmem).1⟩

/-- Witness for C4: an append run over `[110001]` with that pincode
already cached is a no-op. -/
theorem C4_append_noop_witness :
    (∀ p ∈ ([110001] : List Nat), p ∈ storeW.map (·.pincode))
    ∧ runMain .append storeW [110001] oracleW
        = { store := storeW, fetched := [], results := [], wrote := false } :=
  ⟨by decide, (C4_append_noop storeW [110001] oracleW (by decide)).1⟩

/-- Witness for C5 on a two-candidate response: only the first candidate
is consumed, the resolution succeeds, and the extracted city comes from
a component typed `locality`. -/
theorem C5_resolution_witness :
    (get_coordinates_for_pincode 560001 [candidateW, candidateW2]
        = get_coordinates_for_pincode 560001 [candidateW])
    ∧ (get_coordinates_for_pincode 560001 [candidateW, candidateW2]).isSome = true
    ∧ (∃ comp ∈ candidateW.address_components,
        "locality" ∈ comp.types ∧ comp.long_name = "Bengaluru") :=
  ⟨C5_first_candidate_resolution.1 560001 candidateW [candidateW2],
   C5_first_candidate_resolution.2.1 560001 [candidateW, candidateW2] (by decide),
   (C5_first_candidate_resolution.2.2 560001 candidateW [candidateW2]
      ⟨560001, 12, 77, some "Bengaluru", some "Karnataka", "Bengaluru, Karnataka, India"⟩
      (by decide)).2.2.1 "Bengaluru" (by decide)⟩

/-- Witness for C7: away from the count 100 the marker and cluster
count-tier tables agree. -/
theorem C7_tier_witness :
    (5000 : Nat) ≠ 100 ∧ countColorMarker 5000 = countColorCluster 5000 :=
  ⟨by decide, C7_tier_functions.2.2.2.1 5000 (by decide)⟩

/-- Witness for C9 (amended): a refetch-all run over the observed
pincode 560001 rebuilds the store as the run's successes. -/
theorem C9_refetch_witness :
    ([560001] : List Nat) ≠ []
    ∧ (runMain .refetchAll storeW [560001] oracleW).store
        = (uniqueSorted [560001]).filterMap oracleW := by
  have hwf : ∀ (p : Nat) (r : GeoResult), oracleW p = some r → r.pincode = p := by
    intro p r h
    unfold oracleW at h
    split at h
    · rename_i hp
      injection h with h2
      rw [← h2, hp]
    · exact Option.noConfusion h
  exact ⟨by decide, (C9_refetch_rebuild storeW [560001] oracleW (by decide) hwf).1⟩

/-- Witness for C10: the single-pincode view with null cache city/state
and null raw city/state produces a summary with null dominant city and
state. -/
theorem C10_all_null_witness :
    groupOf (filterYear none (load_data cacheNull recsNull)) 400001 ≠ []
    ∧ ∃ s ∈ pincode_summary cacheNull recsNull none, s.pincode = 400001
        ∧ ((∀ r ∈ groupOf (filterYear none (load_data cacheNull recsNull)) 400001,
              r.city = none) → s.dominantCity = none)
        ∧ ((∀ r ∈ groupOf (filterYear none (load_data cacheNull recsNull)) 400001,
              r.state = none) → s.dominantState = none) :=
  ⟨by decide, C10_all_null_locality cacheNull recsNull none 400001 (by decide)⟩

end TEF
